import Mathlib

/-!
Verification development for the Gemini File Search dashboard (`app.py`).

The file shallowly embeds the non-UI logic of the program: the MIME
resolver `guess_mime`, the pager-draining logic shared by `list_stores`
and `list_store_documents`, the store activation and deletion handlers,
the document batch-delete loop, the query configuration builder, and the
upload-and-import loop with its polling of the long-running operation.
Remote calls and platform tables are parameters (their outcomes are
inputs), local Python semantics (variable binding, exception paths,
`finally` cleanup) are modelled explicitly.
-/

/-! ## os.path.splitext -/

/-- Index of the last occurrence of a dot in a character list, as used by
the CPython implementation of `os.path.splitext` (which takes the last
dot and only splits there when some strictly earlier character of the
file name is not a dot, so that dotfiles have no extension). -/
def lastDotIdx (cs : List Char) : Option Nat :=
  match cs.reverse.findIdx? (fun c => c = '.') with
  | none => none
  | some j => some (cs.length - 1 - j)

/-- True when some character strictly before position `i` is not a dot:
CPython splits at the final dot only under this condition. -/
def hasNonDotBefore (cs : List Char) (i : Nat) : Bool :=
  (cs.take i).any (fun c => decide (c ≠ '.'))

/-- The extension part `os.path.splitext(s)[1]` for a bare file name
(no directory separators), dot included; empty when there is none. -/
def splitextExt (s : String) : String :=
  let cs := s.data
  match lastDotIdx cs with
  | none => ""
  | some i => if hasNonDotBefore cs i then String.mk (cs.drop i) else ""

/-- The root part `os.path.splitext(s)[0]` for a bare file name:
everything before the extension dot, or the whole name. -/
def splitextRoot (s : String) : String :=
  let cs := s.data
  match lastDotIdx cs with
  | none => s
  | some i => if hasNonDotBefore cs i then String.mk (cs.take i) else s

/-! ## guess_mime -/

/-- Python truthiness of `mime` where `mime` is `None` or a string:
falsy when absent or empty. -/
def pyFalsy : Option String → Bool
  | none => true
  | some s => s = ""

/-- Python `m or d` for `m : Option String`: the string when truthy,
else the default. -/
def pyOr (m : Option String) (d : String) : String :=
  match m with
  | none => d
  | some s => if s = "" then d else s

/-- The fixed override table `common` of `guess_mime`, keyed by
lower-cased extension. -/
def common : List (String × String) :=
  [(".md", "text/markdown"),
   (".txt", "text/plain"),
   (".csv", "text/csv"),
   (".json", "application/json"),
   (".pdf", "application/pdf"),
   (".html", "text/html"),
   (".xml", "application/xml")]

/-- Dictionary lookup `common.get(ext)`. -/
def commonGet (ext : String) : Option String :=
  (common.find? (fun p => p.fst = ext)).map Prod.snd

/-- Python `str.lower()`, character by character (ASCII behaviour of
`Char.toLower`, matching the extension strings involved here). -/
def strLower (s : String) : String :=
  String.mk (s.data.map Char.toLower)

/-- `mimetypes.guess_type`, with the platform extension table as a
parameter: the standard library keys its final lookup on the lower-cased
extension of the file name. Returns `none` on a miss. -/
def guess_type (table : String → Option String) (filename : String) : Option String :=
  table (strLower (splitextExt filename))

/-- `guess_mime(filename)` from `app.py`: consult the platform table,
on a falsy result consult the `common` override table keyed by the
lower-cased `os.path.splitext` extension, and default to
`application/octet-stream`. -/
def guess_mime (table : String → Option String) (filename : String) : String :=
  let mime0 := guess_type table filename
  let ext := strLower (splitextExt filename)
  let mime1 := if pyFalsy mime0 then commonGet ext else mime0
  pyOr mime1 "application/octet-stream"

/-! ## Pager drainer (`list_stores` / `list_store_documents`)

Both functions run the same logic: call the remote list endpoint, then
case on the shape of the returned value (cursor with `.page` /
`has_next_page()` / `next_page()`, object with a collection attribute,
plain list or tuple, anything else), draining cursors page by page and
swallowing any exception raised while advancing. -/

/-- The cursor shape a list call may return: the current `.page` plus
what happens on `has_next_page()` / `next_page()` — either no further
page, or advancing raises, or a next cursor. -/
inductive Cursor (α : Type) : Type where
  | last (page : List α)
  | errNext (page : List α)
  | next (page : List α) (c : Cursor α)
  deriving Repr, DecidableEq

/-- The possible outcomes of the remote list call, covering the shapes
the code cases on: the call raising, a cursor, an object exposing the
collection attribute (`.stores` / `.documents`), a plain list or tuple,
and a value of none of these shapes. -/
inductive ListCallResult (α : Type) : Type where
  | raises (msg : String)
  | cursor (c : Cursor α)
  | withAttr (items : List α)
  | plain (items : List α)
  | unknown
  deriving Repr, DecidableEq

/-- The inner `while hasattr(...) and pager.has_next_page()` loop wrapped
in `try/except: pass`: accumulate the current page and every page reached
by `next_page()`, stopping silently when advancing raises. -/
def drainCursor {α : Type} : Cursor α → List α
  | .last p => p
  | .errNext p => p
  | .next p c => p ++ drainCursor c

/-- The body shared by `list_stores` and `list_store_documents`: start
from the empty accumulator, case on the shape of the call result, and on
an exception from the call itself report a warning and return the items
accumulated so far (the empty list). Result: the items and the optional
warning message. -/
def drain {α : Type} (r : ListCallResult α) : List α × Option String :=
  match r with
  | .raises msg => ([], some msg)
  | .cursor c => (drainCursor c, none)
  | .withAttr items => (items, none)
  | .plain items => (items, none)
  | .unknown => ([], none)

/-- `list_stores(client)`: drain the result of
`client.file_search_stores.list(config={"page_size": 20})`; a failure of
the call is surfaced as the sidebar warning. -/
def list_stores {α : Type} (callResult : ListCallResult α) : List α × Option String :=
  drain callResult

/-- `list_store_documents(client, store_name)`: drain the result of
`client.file_search_stores.documents.list(...)`; a failure of the call
is surfaced as the page warning. -/
def list_store_documents {α : Type} (callResult : ListCallResult α) : List α × Option String :=
  drain callResult

/-- A pure chain of pages ending with `has_next_page()` false. -/
def chainOfPages {α : Type} : List (List α) → Cursor α
  | [] => .last []
  | [p] => .last p
  | p :: ps => .next p (chainOfPages ps)

/-- A chain of pages after which advancing raises: every page of `ps` is
reached, then `next_page()` raises. -/
def chainThenErr {α : Type} (ps : List (List α)) (lastPage : List α) : Cursor α :=
  match ps with
  | [] => .errNext lastPage
  | p :: ps => .next p (chainThenErr ps lastPage)

/-! ## Session state, store activation and store deletion -/

/-- A remote Store as the UI sees it: attributes are read with
`_safe_get(obj, attr, default)`, so each may be absent. -/
structure Store where
  name : Option String
  display_name : Option String
  deriving Repr, DecidableEq

/-- A remote Document row as the UI reads it via `_safe_get`. -/
structure Document where
  name : Option String
  display_name : Option String
  deriving Repr, DecidableEq

/-- `_safe_get(s, "name", "")` on a Store. -/
def safeGetName (s : Store) : String :=
  s.name.getD ""

/-- The `st.session_state` keys the store handlers touch. A `none`
component models the key being absent from the mapping. -/
structure SessionState where
  file_search_store : Option Store
  file_search_store_name : Option String
  file_search_store_display_name : Option String
  store_documents : Option (List Document)
  store_docs_for : Option String
  stores_list : Option (List Store)
  deriving Repr, DecidableEq

/-- The store-activation branch: with `active_name =
st.session_state.get("file_search_store_name", "")`, when the selected
store's safe name is truthy and differs from `active_name`, put the
store into state (`ensure_store_in_state`), record its display name,
reload the document cache from the remote listing (given here as
`freshDocs`) and retag it; otherwise leave the state untouched. -/
def activateSelected (ss : SessionState) (selected : Store)
    (freshDocs : List Document) : SessionState :=
  let sel_name := safeGetName selected
  let active_name := ss.file_search_store_name.getD ""
  if sel_name ≠ "" ∧ sel_name ≠ active_name then
    { ss with
      file_search_store := some selected,
      file_search_store_name := some sel_name,
      file_search_store_display_name := some (selected.display_name.getD ""),
      store_documents := some freshDocs,
      store_docs_for := some sel_name }
  else ss

/-- Clearing of the four keys popped when the deleted store was the
active one. -/
def clearActiveStore (ss : SessionState) : SessionState :=
  { ss with
    file_search_store := none,
    file_search_store_name := none,
    store_documents := none,
    store_docs_for := none }

/-- The delete-active-store handler, for a click with a selected store.
`remote` is the outcome of `client.file_search_stores.delete(name=...)`
and `freshStores` the outcome of the `list_stores` refresh. Returns the
new session state, whether the remote delete call was issued, and the
error message shown, if any. Note the refresh of `stores_list` sits
inside the `else` branch of the empty-name check. -/
def deleteActiveStoreHandler (ss : SessionState) (selected : Store)
    (remote : Except String Unit) (freshStores : List Store) :
    SessionState × Bool × Option String :=
  let store_to_delete_name := safeGetName selected
  if store_to_delete_name = "" then
    (ss, false, some "No store resource name available for deletion.")
  else
    match remote with
    | .ok _ =>
      let ss1 :=
        if ss.file_search_store_name = some store_to_delete_name then
          clearActiveStore ss
        else ss
      ({ ss1 with stores_list := some freshStores }, true, none)
    | .error e1 =>
      ({ ss with stores_list := some freshStores }, true,
       some ("Failed to delete store: " ++ e1))

/-! ## Document batch delete -/

/-- One row of the batch-delete results table. -/
structure DeleteRecord where
  document : String
  status : String
  deriving Repr, DecidableEq

/-- A remote call made by the batch-delete handler: a per-document
forced delete, or the single document-cache refresh. -/
inductive RemoteEvent : Type where
  | deleteCall (name : String) (force : Bool)
  | refreshDocs (store : String)
  deriving Repr, DecidableEq

/-- The loop body over `selected_doc_names`: one
`documents.delete(name=doc_name, config={"force": True})` per name, a
`deleted` row on success and an `error: ...` row when it raises.
`outcome` gives each call's result. -/
def batchDeleteResults (outcome : String → Except String Unit)
    (docs : List String) : List DeleteRecord :=
  docs.map fun doc_name =>
    match outcome doc_name with
    | .ok _ => { document := doc_name, status := "deleted" }
    | .error e1 => { document := doc_name, status := "error: " ++ e1 }

/-- The whole handler: run the per-document loop, then refresh the
document cache for the active store once. Returns the results table and
the trace of remote calls in order. -/
def batchDeleteHandler (outcome : String → Except String Unit)
    (docs : List String) (store_name : String) :
    List DeleteRecord × List RemoteEvent :=
  (batchDeleteResults outcome docs,
   docs.map (fun doc_name => RemoteEvent.deleteCall doc_name true)
     ++ [RemoteEvent.refreshDocs store_name])

/-! ## Query runner -/

/-- Python `str.strip()`: drop whitespace from both ends. -/
def pyStrip (s : String) : String :=
  String.mk (((s.data.dropWhile Char.isWhitespace).reverse.dropWhile
    Char.isWhitespace).reverse)

/-- The triple-quoted system-prompt literal of `app.py`: its value
starts and ends with a quote character of its own and keeps the
source's line breaks and indentation. -/
def defaultSysPromptText : String :=
  "\"You are a specialized tool for verifying the existence and details of a bug bounty program based on the user\x27s input. \"\n" ++
  "                            \"**Strictly use the File Search tool on the provided vector store** to find a matching bug bounty program. \"\n" ++
  "                            \"If a match is found, extract the required details. \"\n" ++
  "                            \"**Respond strictly in a single JSON object only**, with no explanations, extra text, or markdown formatting (e.g., no \x60\x60\x60json \x60\x60\x60). \"\n" ++
  "                            \"The required fields are: \"\n" ++
  "                            \"* **\x27Found\x27**: (string, \x27Yes\x27 or \x27No\x27) — Indicate if a bug bounty program was found for the input. \"\n" ++
  "                            \"* **\x27Source\x27**: (string, the name or ID of the document/file in the vector store where the information was found, or \x27N/A\x27 if not found). \"\n" ++
  "                            \"* **\x27Rewards\x27**: (string, \x27Yes\x27 or \x27No\x27) — Indicate if the program offers monetary or non-monetary rewards. \"\n" ++
  "                            \"Example of expected output: \x7b\x27Found\x27: \x27Yes\x27, \x27Source\x27: \x27vector_store_doc_123\x27, \x27Rewards\x27: \x27Yes\x27\x7d\" "

/-- The full `sys_prompt` value when `use_default_prompt` holds: the
literal above concatenated with the f-string
`f"Input: {question.strip()}"`. -/
def sysPromptFor (question : String) : String :=
  defaultSysPromptText ++ ("Input: " ++ pyStrip question)

/-- One entry of the `tools` list in the submitted configuration. -/
structure FileSearchTool where
  file_search_store_names : List String
  deriving Repr, DecidableEq

/-- The configuration dictionary passed to
`client.models.generate_content`: the tools list, and the optional
`system_instruction` key. -/
structure GenConfig where
  tools : List FileSearchTool
  system_instruction : Option String
  deriving Repr, DecidableEq

/-- Construction of `config`: `sys_prompt` starts as `None` and is set
when `use_default_prompt` holds; the dictionary always carries the
file-search tool scoped to `store_name`, and the `system_instruction`
key is added exactly when `use_default_prompt` holds. -/
def buildAskConfig (store_name question : String)
    (use_default_prompt : Bool) : GenConfig :=
  let sys_prompt : Option String :=
    if use_default_prompt then some (sysPromptFor question) else none
  { tools := [{ file_search_store_names := [store_name] }],
    system_instruction :=
      if use_default_prompt then sys_prompt else none }

/-- The guard `if ask and question.strip():` —  the configuration is
only built and submitted when the button was clicked and the stripped
question is truthy (non-empty). -/
def askHandler (ask : Bool) (question store_name : String)
    (use_default_prompt : Bool) : Option GenConfig :=
  if ask ∧ pyStrip question ≠ "" then
    some (buildAskConfig store_name question use_default_prompt)
  else none

/-! ## Import operation polling -/

/-- The long-running-operation handle, as the code reads it: the only
attribute consulted is `done`, via `getattr(operation, "done", False)`,
so the attribute may be absent. -/
structure Operation where
  done : Option Bool
  deriving Repr, DecidableEq

/-- `getattr(operation, "done", False)`. -/
def getattrDone (op : Operation) : Bool :=
  op.done.getD false

/-- The polling loop `while not getattr(operation, "done", False):
time.sleep(2); operation = client.operations.get(operation)`, run
against `fetches`, the stream of outcomes of the successive
`operations.get` calls. `some (.ok t)` means the loop exited normally
after sleeping `t` time units in total, `some (.error e)` that a
status re-fetch raised `e`, and `none` that the stream was exhausted
with the loop still running (the unbounded wait has not terminated
within the given behaviour). -/
def pollLoop : Operation → List (Except String Operation) → Option (Except String Nat)
  | op, fetches =>
    if getattrDone op then some (.ok 0)
    else
      match fetches with
      | [] => none
      | .error e :: _ => some (.error e)
      | .ok op2 :: rest =>
        match pollLoop op2 rest with
        | none => none
        | some (.error e) => some (.error e)
        | some (.ok t) => some (.ok (t + 2))

/-- The operation eventually reads as done along the fetch stream: the
current handle is done, or the next re-fetch succeeds and is eventually
done along the rest. -/
def eventuallyDone : Operation → List (Except String Operation) → Bool
  | op, [] => getattrDone op
  | op, .ok op2 :: rest => getattrDone op || eventuallyDone op2 rest
  | op, .error _ :: _ => getattrDone op

/-! ## Upload & import loop -/

/-- One result row of the upload batch. A success row carries the four
keys `file`, `display_name`, `mime_type`, `status`; a failure row lacks
`mime_type` (modelled as `none`). -/
structure UploadRecord where
  file : String
  display_name : String
  mime_type : Option String
  status : String
  deriving Repr, DecidableEq

instance exceptDecEq {ε α : Type} [DecidableEq ε] [DecidableEq α] :
    DecidableEq (Except ε α)
  | .ok a, .ok b =>
    if h : a = b then isTrue (by rw [h])
    else isFalse (by intro hh; cases hh; exact h rfl)
  | .ok _, .error _ => isFalse (by intro h; cases h)
  | .error _, .ok _ => isFalse (by intro h; cases h)
  | .error e, .error e2 =>
    if h : e = e2 then isTrue (by rw [h])
    else isFalse (by intro hh; cases hh; exact h rfl)

/-- The behaviour of one uploaded file `f`: its `f.name`, the path the
`NamedTemporaryFile` gets, whether writing the buffer to it raises, the
outcome of `upload_to_file_search_store`, and the stream of
`operations.get` outcomes for the polling loop. -/
structure FileInput where
  name : String
  tmpName : String
  tmpWriteErr : Option String
  uploadResult : Except String Operation
  fetches : List (Except String Operation)
  deriving Repr, DecidableEq

/-- The Python local variables that leak across loop iterations and
that the `except`/`finally` blocks read: `none` models an unbound
name. -/
structure LocalVars where
  display_name : Option String
  temp_path : Option String
  deriving Repr, DecidableEq

/-- The `finally` block: `try: os.remove(temp_path) except: pass`. An
unbound `temp_path` raises `NameError` and a missing file raises
`FileNotFoundError`, both swallowed; otherwise the file at `temp_path`
is removed from the set of existing temp files. -/
def finallyCleanup (vars : LocalVars) (fs : List String) : List String :=
  match vars.temp_path with
  | none => fs
  | some p => fs.erase p

/-- The `except Exception as e:` handler body: build the failure row
`{"file": f.name, "display_name": display_name, "status": f"error: {e}"}`.
Reading `display_name` when it is unbound raises `NameError`, which
escapes the handler. -/
def mkFailureRecord (vars : LocalVars) (fname msg : String) :
    Except String UploadRecord :=
  match vars.display_name with
  | none => .error "NameError: display_name"
  | some d =>
    .ok { file := fname, display_name := d, mime_type := none,
          status := "error: " ++ msg }

/-- How one iteration of the upload loop ends: a row appended to
`results` (success or handled failure), an exception escaping the
handler itself, or the polling loop never terminating. -/
inductive FileOutcome : Type where
  | appended (r : UploadRecord)
  | escaped (msg : String)
  | hung
  deriving Repr, DecidableEq

/-- One iteration of the upload loop for file `f`: create the temp file
(`NamedTemporaryFile(delete=False)` creates it on disk immediately),
write the buffer, bind `temp_path`, derive `display_name` and the MIME
type, upload, poll, and append the success row; any exception is fed to
the handler of `mkFailureRecord`; the `finally` cleanup runs on every
path that leaves the iteration. Returns the leaked local variables, the
temp files still existing, and how the iteration ended. -/
def processFile (table : String → Option String) (vars : LocalVars)
    (fs : List String) (f : FileInput) :
    LocalVars × List String × FileOutcome :=
  let fs1 := f.tmpName :: fs
  match f.tmpWriteErr with
  | some msg =>
    match mkFailureRecord vars f.name msg with
    | .ok r => (vars, finallyCleanup vars fs1, .appended r)
    | .error ne => (vars, finallyCleanup vars fs1, .escaped ne)
  | none =>
    let vars1 : LocalVars := { vars with temp_path := some f.tmpName }
    let dn := splitextRoot f.name
    let vars2 : LocalVars := { vars1 with display_name := some dn }
    let mt := guess_mime table f.name
    match f.uploadResult with
    | .error msg =>
      match mkFailureRecord vars2 f.name msg with
      | .ok r => (vars2, finallyCleanup vars2 fs1, .appended r)
      | .error ne => (vars2, finallyCleanup vars2 fs1, .escaped ne)
    | .ok op =>
      match pollLoop op f.fetches with
      | none => (vars2, fs1, .hung)
      | some (.error msg) =>
        match mkFailureRecord vars2 f.name msg with
        | .ok r => (vars2, finallyCleanup vars2 fs1, .appended r)
        | .error ne => (vars2, finallyCleanup vars2 fs1, .escaped ne)
      | some (.ok _) =>
        (vars2, finallyCleanup vars2 fs1,
         .appended { file := f.name, display_name := dn,
                     mime_type := some mt, status := "success" })

/-- How the whole upload batch ends: the loop ran to completion with
the collected `results`, or an exception escaped a handler and aborted
it (later files unprocessed), or a polling loop hung. -/
inductive LoopResult : Type where
  | finished (results : List UploadRecord)
  | aborted (results : List UploadRecord) (msg : String)
  | hung (results : List UploadRecord)
  deriving Repr, DecidableEq

/-- The `for f in uploaded_files:` loop, threading the leaked locals,
the existing temp files and the accumulated `results` rows. -/
def uploadLoopAux (table : String → Option String) :
    LocalVars → List String → List UploadRecord → List FileInput →
    List String × LoopResult
  | _, fs, acc, [] => (fs, .finished acc.reverse)
  | vars, fs, acc, f :: rest =>
    match processFile table vars fs f with
    | (vars2, fs2, .appended r) => uploadLoopAux table vars2 fs2 (r :: acc) rest
    | (_, fs2, .escaped m) => (fs2, .aborted acc.reverse m)
    | (_, fs2, .hung) => (fs2, .hung acc.reverse)

/-- The upload handler for a click: fresh local scope (both
`display_name` and `temp_path` unbound), no temp files, empty
`results`. -/
def uploadLoop (table : String → Option String) (files : List FileInput) :
    List String × LoopResult :=
  uploadLoopAux table { display_name := none, temp_path := none } [] [] files

/-! ## Helper lemmas -/

theorem drainCursor_chainOfPages {α : Type} (ps : List (List α)) :
    drainCursor (chainOfPages ps) = ps.flatten := by
  induction ps with
  | nil => rfl
  | cons p ps ih =>
    cases ps with
    | nil => simp [chainOfPages, drainCursor]
    | cons q qs => simpa [chainOfPages, drainCursor] using ih

theorem drainCursor_chainThenErr {α : Type} (ps : List (List α)) (lastPage : List α) :
    drainCursor (chainThenErr ps lastPage) = ps.flatten ++ lastPage := by
  induction ps with
  | nil => simp [chainThenErr, drainCursor]
  | cons p ps ih => simp [chainThenErr, drainCursor, ih]

/-! ## Claim theorems -/

/-- Claim C8: `guess_mime` is a deterministic total function on
filenames: it first consults the platform extension table (any hit with
a truthy value wins); on a miss it consults the fixed override table
keyed by the lower-cased extension, returning the mapped type; otherwise
it returns `application/octet-stream`; and the result depends only on
the lower-cased extension, hence is case-insensitive in the
extension. -/
theorem guess_mime_spec :
    (∀ (table : String → Option String) (fn m : String),
      table (strLower (splitextExt fn)) = some m → m ≠ "" →
      guess_mime table fn = m) ∧
    (∀ (table : String → Option String) (fn ext mime : String),
      (ext, mime) ∈ common →
      table (strLower (splitextExt fn)) = none →
      strLower (splitextExt fn) = ext →
      guess_mime table fn = mime) ∧
    (∀ (table : String → Option String) (fn : String),
      table (strLower (splitextExt fn)) = none →
      commonGet (strLower (splitextExt fn)) = none →
      guess_mime table fn = "application/octet-stream") ∧
    (∀ (table : String → Option String) (fn gn : String),
      strLower (splitextExt fn) = strLower (splitextExt gn) →
      guess_mime table fn = guess_mime table gn) := by
  refine ⟨?_, ?_, ?_, ?_⟩
  · intro table fn m h hm
    simp [guess_mime, guess_type, pyFalsy, pyOr, h, hm]
  · intro table fn ext mime hmem h hext
    have hg : guess_mime table fn =
        pyOr (commonGet ext) "application/octet-stream" := by
      rw [hext] at h
      simp [guess_mime, guess_type, pyFalsy, hext, h]
    rw [hg]
    simp only [common, List.mem_cons, List.not_mem_nil, or_false,
      Prod.mk.injEq] at hmem
    rcases hmem with ⟨h1, h2⟩ | ⟨h1, h2⟩ | ⟨h1, h2⟩ | ⟨h1, h2⟩ |
      ⟨h1, h2⟩ | ⟨h1, h2⟩ | ⟨h1, h2⟩ <;> subst h1 <;> subst h2 <;> decide
  · intro table fn h hc
    simp [guess_mime, guess_type, pyFalsy, pyOr, h, hc]
  · intro table fn gn h
    simp [guess_mime, guess_type, h]

/-- Witness for C8: with an empty platform table, the file `NOTES.MD`
resolves through the override table to `text/markdown`, and an unknown
extension falls through to `application/octet-stream`. -/
theorem guess_mime_spec_witness :
    guess_mime (fun _ => none) "NOTES.MD" = "text/markdown" ∧
    guess_mime (fun _ => none) "data.weird" = "application/octet-stream" := by
  constructor
  · exact guess_mime_spec.2.1 (fun _ => none) "NOTES.MD" ".md" "text/markdown"
      (by decide) rfl (by decide)
  · exact guess_mime_spec.2.2.1 (fun _ => none) "data.weird" rfl (by decide)

/-- Claim C3: the pager drain used by both `list_stores` and
`list_store_documents` is total (never propagates an exception, by
construction of `drain`) and matches the reference behaviour: a cursor
chain of pages drains to their concatenation in page order (the 5/5/2
stub drains to exactly the 12 items in order), a chain whose further
advance raises drains to exactly the items accumulated so far, a plain
collection and an attribute collection come back unchanged, and a
raising list call yields the empty sequence together with the non-fatal
warning. -/
theorem drain_pager_spec :
    (∀ (α : Type) (ps : List (List α)),
      drain (.cursor (chainOfPages ps)) = (ps.flatten, none)) ∧
    (∀ (α : Type) (ps : List (List α)) (lastPage : List α),
      drain (.cursor (chainThenErr ps lastPage)) = (ps.flatten ++ lastPage, none)) ∧
    (drain (.cursor (chainOfPages [[1, 2, 3, 4, 5], [6, 7, 8, 9, 10], [11, 12]]))
      = ([1, 2, 3, 4, 5, 6, 7, 8, 9, 10, 11, 12], (none : Option String))) ∧
    (∀ (α : Type) (items : List α), drain (.plain items) = (items, none)) ∧
    (∀ (α : Type) (items : List α), drain (.withAttr items) = (items, none)) ∧
    (∀ msg, drain (ListCallResult.raises (α := Nat) msg) = ([], some msg)) ∧
    (∀ (α : Type) (r : ListCallResult α),
      list_stores r = drain r ∧ list_store_documents r = drain r) := by
  refine ⟨?_, ?_, by decide, ?_, ?_, ?_, ?_⟩
  · intro α ps
    simp [drain, drainCursor_chainOfPages]
  · intro α ps lastPage
    simp [drain, drainCursor_chainThenErr]
  · intro α items; rfl
  · intro α items; rfl
  · intro msg; rfl
  · intro α r; exact ⟨rfl, rfl⟩

/-- Counterexample to claim C7 as stated: a selected store whose `name`
attribute is absent reads as the empty identifier, which differs from
the active identifier `stores/s1`, yet activation is a no-op — the
session state, the document cache and its tag are all left unchanged
instead of being set to the newly selected store. -/
theorem activate_selected_counterexample :
    safeGetName { name := none, display_name := some "Ghost" } ≠
      (SessionState.file_search_store_name
        { file_search_store := some { name := some "stores/s1", display_name := some "S1" },
          file_search_store_name := some "stores/s1",
          file_search_store_display_name := some "S1",
          store_documents := some [{ name := some "docs/d1", display_name := some "D1" }],
          store_docs_for := some "stores/s1",
          stores_list := none }).getD "" ∧
    activateSelected
      { file_search_store := some { name := some "stores/s1", display_name := some "S1" },
        file_search_store_name := some "stores/s1",
        file_search_store_display_name := some "S1",
        store_documents := some [{ name := some "docs/d1", display_name := some "D1" }],
        store_docs_for := some "stores/s1",
        stores_list := none }
      { name := none, display_name := some "Ghost" }
      [{ name := some "docs/d9", display_name := some "D9" }] =
      { file_search_store := some { name := some "stores/s1", display_name := some "S1" },
        file_search_store_name := some "stores/s1",
        file_search_store_display_name := some "S1",
        store_documents := some [{ name := some "docs/d1", display_name := some "D1" }],
        store_docs_for := some "stores/s1",
        stores_list := none } := by
  exact ⟨by decide, by decide⟩

/-- Claim C7 (amended): store activation changes session state only
when the selected store's identifier is truthy (non-empty) and differs
from the currently active one; in that case the store is made active
and the document cache is reloaded and retagged to the new identifier;
selecting the already-active store again — or a store with no
identifier — is a no-op leaving the cache and its tag unchanged. -/
theorem activate_selected_spec :
    ∀ (ss : SessionState) (selected : Store) (freshDocs : List Document),
      (safeGetName selected ≠ "" →
        safeGetName selected ≠ ss.file_search_store_name.getD "" →
        activateSelected ss selected freshDocs =
          { ss with
            file_search_store := some selected,
            file_search_store_name := some (safeGetName selected),
            file_search_store_display_name := some (selected.display_name.getD ""),
            store_documents := some freshDocs,
            store_docs_for := some (safeGetName selected) }) ∧
      (safeGetName selected = ss.file_search_store_name.getD "" →
        activateSelected ss selected freshDocs = ss) ∧
      (safeGetName selected = "" →
        activateSelected ss selected freshDocs = ss) ∧
      (activateSelected ss selected freshDocs ≠ ss →
        safeGetName selected ≠ ss.file_search_store_name.getD "") := by
  intro ss selected freshDocs
  refine ⟨?_, ?_, ?_, ?_⟩
  · intro h1 h2
    simp [activateSelected, h1, h2]
  · intro h
    simp [activateSelected, h]
  · intro h
    simp [activateSelected, h]
  · intro hne heq
    apply hne
    simp [activateSelected, heq]

/-- Witness for C7: activating a store with the fresh identifier
`stores/s2` while `stores/s1` is active updates the active store and
retags the document cache to `stores/s2`. -/
theorem activate_selected_spec_witness :
    activateSelected
      { file_search_store := some { name := some "stores/s1", display_name := some "S1" },
        file_search_store_name := some "stores/s1",
        file_search_store_display_name := some "S1",
        store_documents := some [{ name := some "docs/d1", display_name := some "D1" }],
        store_docs_for := some "stores/s1",
        stores_list := none }
      { name := some "stores/s2", display_name := some "S2" }
      [{ name := some "docs/d9", display_name := some "D9" }] =
      { file_search_store := some { name := some "stores/s2", display_name := some "S2" },
        file_search_store_name := some "stores/s2",
        file_search_store_display_name := some "S2",
        store_documents := some [{ name := some "docs/d9", display_name := some "D9" }],
        store_docs_for := some "stores/s2",
        stores_list := none } := by
  have h := (activate_selected_spec
    { file_search_store := some { name := some "stores/s1", display_name := some "S1" },
      file_search_store_name := some "stores/s1",
      file_search_store_display_name := some "S1",
      store_documents := some [{ name := some "docs/d1", display_name := some "D1" }],
      store_docs_for := some "stores/s1",
      stores_list := none }
    { name := some "stores/s2", display_name := some "S2" }
    [{ name := some "docs/d9", display_name := some "D9" }]).1
    (by decide) (by decide)
  simpa using h

/-- Counterexample to claim C4 as stated: with a selected store whose
identifier is empty, the handler reports the local validation error and
makes no remote call, but it does not refresh the cached store list —
the refresh sits inside the `else` branch of the empty-name check, so
the stale cache (here one store) is kept even though the fresh listing
(here empty) was available. -/
theorem delete_store_counterexample :
    deleteActiveStoreHandler
      { file_search_store := none,
        file_search_store_name := none,
        file_search_store_display_name := none,
        store_documents := none,
        store_docs_for := none,
        stores_list := some [{ name := some "stores/s1", display_name := some "S1" }] }
      { name := none, display_name := some "Ghost" }
      (.ok ()) [] =
      ({ file_search_store := none,
         file_search_store_name := none,
         file_search_store_display_name := none,
         store_documents := none,
         store_docs_for := none,
         stores_list := some [{ name := some "stores/s1", display_name := some "S1" }] },
       false, some "No store resource name available for deletion.") ∧
    (deleteActiveStoreHandler
      { file_search_store := none,
        file_search_store_name := none,
        file_search_store_display_name := none,
        store_documents := none,
        store_docs_for := none,
        stores_list := some [{ name := some "stores/s1", display_name := some "S1" }] }
      { name := none, display_name := some "Ghost" }
      (.ok ()) []).1.stores_list ≠ some [] := by
  exact ⟨by decide, by decide⟩

/-- Claim C4 (amended): if the selected store's identifier is empty, a
local validation error is reported, no remote delete call is made, and
the session state — including the cached store list — is left unchanged
(the list is not refreshed on this path); whenever the identifier is
non-empty, the remote delete is issued and the cached store list is
refreshed afterward regardless of the delete's outcome, and a
successful delete of the active store additionally clears the active
store and the document caches. -/
theorem delete_store_spec :
    ∀ (ss : SessionState) (selected : Store) (remote : Except String Unit)
      (fresh : List Store),
      (safeGetName selected = "" →
        deleteActiveStoreHandler ss selected remote fresh =
          (ss, false, some "No store resource name available for deletion.")) ∧
      (safeGetName selected ≠ "" →
        (deleteActiveStoreHandler ss selected remote fresh).2.1 = true ∧
        (deleteActiveStoreHandler ss selected remote fresh).1.stores_list =
          some fresh) ∧
      (safeGetName selected ≠ "" → remote = .ok () →
        ss.file_search_store_name = some (safeGetName selected) →
        (deleteActiveStoreHandler ss selected remote fresh).1 =
          { clearActiveStore ss with stores_list := some fresh }) := by
  intro ss selected remote fresh
  refine ⟨?_, ?_, ?_⟩
  · intro h
    simp [deleteActiveStoreHandler, h]
  · intro h
    cases remote with
    | ok u => simp [deleteActiveStoreHandler, h]
    | error e1 => simp [deleteActiveStoreHandler, h]
  · intro h hok hactive
    subst hok
    simp [deleteActiveStoreHandler, h, hactive]

/-- Witness for C4: deleting the active store `stores/s1` with a
succeeding remote call clears the active store and document caches and
replaces the store list with the fresh (empty) listing. -/
theorem delete_store_spec_witness :
    (deleteActiveStoreHandler
      { file_search_store := some { name := some "stores/s1", display_name := some "S1" },
        file_search_store_name := some "stores/s1",
        file_search_store_display_name := some "S1",
        store_documents := some [],
        store_docs_for := some "stores/s1",
        stores_list := some [{ name := some "stores/s1", display_name := some "S1" }] }
      { name := some "stores/s1", display_name := some "S1" }
      (.ok ()) []).1 =
      { file_search_store := none,
        file_search_store_name := none,
        file_search_store_display_name := some "S1",
        store_documents := none,
        store_docs_for := none,
        stores_list := some [] } := by
  have h := (delete_store_spec
    { file_search_store := some { name := some "stores/s1", display_name := some "S1" },
      file_search_store_name := some "stores/s1",
      file_search_store_display_name := some "S1",
      store_documents := some [],
      store_docs_for := some "stores/s1",
      stores_list := some [{ name := some "stores/s1", display_name := some "S1" }] }
    { name := some "stores/s1", display_name := some "S1" }
    (.ok ()) []).2.2 (by decide) rfl (by decide)
  simpa [clearActiveStore] using h

/-- Claim C5: the batch delete issues exactly one forced remote delete
per input identifier, in input order; the result sequence has one entry
per input, the entry of a raising delete carrying the error record and
the others marked deleted (concretely, 3 inputs with the 2nd raising
yield length 3 with item 2 in error and items 1 and 3 deleted); a
failure never aborts the remaining items; and the document cache of the
active store is refreshed exactly once, after the whole batch. -/
theorem batch_delete_spec :
    (∀ (outcome : String → Except String Unit) (docs : List String)
      (store_name : String),
      ((batchDeleteHandler outcome docs store_name).1.length = docs.length) ∧
      (∀ (i : Nat) (d : String), docs.get? i = some d →
        ∃ r, (batchDeleteHandler outcome docs store_name).1.get? i = some r ∧
          r.document = d ∧
          (outcome d = .ok () → r.status = "deleted") ∧
          (∀ e, outcome d = .error e → r.status = "error: " ++ e)) ∧
      ((batchDeleteHandler outcome docs store_name).2 =
        docs.map (fun d => RemoteEvent.deleteCall d true)
          ++ [RemoteEvent.refreshDocs store_name]) ∧
      (((batchDeleteHandler outcome docs store_name).2.filter
          (fun ev => match ev with
            | .refreshDocs _ => true
            | .deleteCall _ _ => false)).length = 1)) ∧
    (batchDeleteHandler
      (fun d => if d = "docs/d2" then .error "boom" else .ok ())
      ["docs/d1", "docs/d2", "docs/d3"] "stores/s1" =
      ([{ document := "docs/d1", status := "deleted" },
        { document := "docs/d2", status := "error: boom" },
        { document := "docs/d3", status := "deleted" }],
       [.deleteCall "docs/d1" true, .deleteCall "docs/d2" true,
        .deleteCall "docs/d3" true, .refreshDocs "stores/s1"])) := by
  constructor
  · intro outcome docs store_name
    refine ⟨?_, ?_, rfl, ?_⟩
    · simp [batchDeleteHandler, batchDeleteResults]
    · intro i d hd
      refine ⟨match outcome d with
        | .ok _ => { document := d, status := "deleted" }
        | .error e1 => { document := d, status := "error: " ++ e1 }, ?_, ?_, ?_, ?_⟩
      · have hd2 : docs[i]? = some d := by simpa [List.get?_eq_getElem?] using hd
        simp [batchDeleteHandler, batchDeleteResults, List.getElem?_map, hd2]
      · cases h : outcome d with
        | ok u => simp [h]
        | error e1 => simp [h]
      · intro h; simp [h]
      · intro e h; simp [h]

    · simp [batchDeleteHandler, List.filter_append, List.filter_map]
  · decide

/-- Witness for C5: in the concrete 3-item batch whose 2nd delete
raises, the 2nd result row is the error record for `docs/d2`. -/
theorem batch_delete_spec_witness :
    ∃ r, (batchDeleteHandler
      (fun d => if d = "docs/d2" then .error "boom" else .ok ())
      ["docs/d1", "docs/d2", "docs/d3"] "stores/s1").1.get? 1 = some r ∧
      r.document = "docs/d2" ∧ r.status = "error: boom" := by
  obtain ⟨r, hr, hdoc, -, herr⟩ :=
    (batch_delete_spec.1
      (fun d => if d = "docs/d2" then .error "boom" else .ok ())
      ["docs/d1", "docs/d2", "docs/d3"] "stores/s1").2.1 1 "docs/d2" rfl
  exact ⟨r, hr, hdoc, herr "boom" (by decide)⟩

/-- Claim C6: for a clicked ask with a question that is non-empty after
stripping, the submitted configuration scopes the file-search tool to
exactly the single active store's identifier; the `system_instruction`
key is present if and only if `use_default_prompt` holds, and when
present its text contains the literal substring `"Input: "` followed by
the stripped question (concretely, `"Input: Acme Corp"` for the
question `"Acme Corp"`). -/
theorem ask_config_spec :
    (∀ (store_name question : String) (use_default_prompt : Bool),
      pyStrip question ≠ "" →
      ∃ c, askHandler true question store_name use_default_prompt = some c ∧
        c.tools = [{ file_search_store_names := [store_name] }] ∧
        (c.system_instruction.isSome ↔ use_default_prompt = true) ∧
        (∀ s, c.system_instruction = some s →
          ("Input: " ++ pyStrip question).data <:+: s.data)) ∧
    (∃ c, askHandler true "Acme Corp" "stores/s1" true = some c ∧
      ∃ s, c.system_instruction = some s ∧
        ("Input: Acme Corp" : String).data <:+: s.data) := by
  constructor
  · intro store_name question use_default_prompt hq
    refine ⟨buildAskConfig store_name question use_default_prompt, ?_, rfl, ?_, ?_⟩
    · simp [askHandler, hq]
    · cases use_default_prompt <;> simp [buildAskConfig]
    · intro s hs
      cases use_default_prompt with
      | false => simp [buildAskConfig] at hs
      | true =>
        simp [buildAskConfig] at hs
        refine ⟨defaultSysPromptText.data, [], ?_⟩
        simp [← hs, sysPromptFor]
  · refine ⟨buildAskConfig "stores/s1" "Acme Corp" true, ?_,
      sysPromptFor "Acme Corp", ?_, ?_⟩
    · simp [askHandler]
      decide
    · simp [buildAskConfig]
    · refine ⟨defaultSysPromptText.data, [], ?_⟩
      have h : ("Input: Acme Corp" : String) = "Input: " ++ pyStrip "Acme Corp" := by
        decide
      simp [h, sysPromptFor]
      decide

/-- Witness for C6: with the default prompt disabled, the configuration
submitted for the question `Acme Corp` carries the single-store tool
scope and no system-instruction key. -/
theorem ask_config_spec_witness :
    ∃ c, askHandler true "Acme Corp" "stores/s1" false = some c ∧
      c.tools = [{ file_search_store_names := ["stores/s1"] }] ∧
      c.system_instruction = none := by
  obtain ⟨c, hc, htools, hiff, -⟩ :=
    ask_config_spec.1 "stores/s1" "Acme Corp" false (by decide)
  refine ⟨c, hc, htools, ?_⟩
  cases h : c.system_instruction with
  | none => rfl
  | some s => simp [h] at hiff

theorem pollLoop_ok_iff :
    ∀ (fetches : List (Except String Operation)) (op : Operation),
    (∃ t, pollLoop op fetches = some (.ok t)) ↔
      eventuallyDone op fetches = true := by
  intro fetches
  induction fetches with
  | nil =>
    intro op
    by_cases h : getattrDone op
    · simp [pollLoop, eventuallyDone, h]
    · simp [pollLoop, eventuallyDone, h]
  | cons f rest ih =>
    intro op
    by_cases h : getattrDone op
    · cases f <;> simp [pollLoop, eventuallyDone, h]
    · cases f with
      | error e => simp [pollLoop, eventuallyDone, h]
      | ok op2 =>
        constructor
        · rintro ⟨t, ht⟩
          simp only [pollLoop, h, if_false] at ht
          rcases h2 : pollLoop op2 rest with - | r
          · simp [h2] at ht
          · cases r with
            | error e => simp [h2] at ht
            | ok t2 =>
              have : eventuallyDone op2 rest = true :=
                (ih op2).1 ⟨t2, h2⟩
              simp [eventuallyDone, h, this]
        · intro he
          simp only [eventuallyDone, h, Bool.false_or] at he
          obtain ⟨t2, h2⟩ := (ih op2).2 he
          exact ⟨t2 + 2, by simp [pollLoop, h, h2]⟩

/-- Claim C9: if the import operation's `done` flag becomes true after
finitely many status re-fetches, the polling loop terminates with a
successful exit (and only then — without the eventual-done assumption
no successful exit exists in the model), sleeping the fixed 2 time
units per check (concretely 6 units for 3 checks), and the whole
upload-and-import iteration for the file then ends with a success
record whose `display_name` is the original filename's extensionless
base name. -/
theorem upload_poll_spec :
    (∀ (op : Operation) (fetches : List (Except String Operation)),
      (∃ t, pollLoop op fetches = some (.ok t)) ↔
        eventuallyDone op fetches = true) ∧
    (∀ (table : String → Option String) (vars : LocalVars)
      (fs : List String) (f : FileInput) (op : Operation),
      f.tmpWriteErr = none → f.uploadResult = .ok op →
      eventuallyDone op f.fetches = true →
      (processFile table vars fs f).2.2 =
        .appended { file := f.name, display_name := splitextRoot f.name,
                    mime_type := some (guess_mime table f.name),
                    status := "success" }) ∧
    (pollLoop { done := some false }
      [.ok { done := some false }, .ok { done := some false },
       .ok { done := some true }] = some (.ok 6)) := by
  refine ⟨fun op fetches => pollLoop_ok_iff fetches op, ?_, by decide⟩
  intro table vars fs f op h1 h2 hdone
  obtain ⟨t, ht⟩ := (pollLoop_ok_iff f.fetches op).2 hdone
  simp [processFile, h1, h2, ht]

/-- Witness for C9: a file whose operation becomes done at the third
status check is imported with display name `doc` and the PDF MIME
type. -/
theorem upload_poll_spec_witness :
    (processFile (fun _ => none) { display_name := none, temp_path := none } []
      { name := "doc.pdf", tmpName := "/tmp/t1", tmpWriteErr := none,
        uploadResult := .ok { done := some false },
        fetches := [.ok { done := some false }, .ok { done := some false },
          .ok { done := some true }] }).2.2 =
      .appended { file := "doc.pdf", display_name := "doc",
                  mime_type := some "application/pdf", status := "success" } := by
  have h := upload_poll_spec.2.1 (fun _ => none)
    { display_name := none, temp_path := none } []
    { name := "doc.pdf", tmpName := "/tmp/t1", tmpWriteErr := none,
      uploadResult := .ok { done := some false },
      fetches := [.ok { done := some false }, .ok { done := some false },
        .ok { done := some true }] }
    { done := some false } rfl rfl (by decide)
  rw [show splitextRoot "doc.pdf" = "doc" by decide,
    show guess_mime (fun _ => none) "doc.pdf" = "application/pdf" by decide] at h
  exact h

/-- Claim C10: the polling guard reads the `done` attribute with a
default of `false`, so it is a total read that never raises; a handle
lacking the attribute reads as not done, and the loop keeps polling on
it — it neither fails nor reports success without an iteration. -/
theorem poll_guard_spec :
    ∀ (op : Operation), op.done = none →
      getattrDone op = false ∧
      pollLoop op [] = none ∧
      (∀ (op2 : Operation) (rest : List (Except String Operation)),
        pollLoop op (.ok op2 :: rest) =
          (match pollLoop op2 rest with
           | none => none
           | some (.error e) => some (.error e)
           | some (.ok t) => some (.ok (t + 2)))) ∧
      (∀ fetches, pollLoop op fetches ≠ some (.ok 0)) := by
  intro op h
  have hd : getattrDone op = false := by simp [getattrDone, h]
  refine ⟨hd, by simp [pollLoop, hd], ?_, ?_⟩
  · intro op2 rest
    simp [pollLoop, hd]
  · intro fetches hcon
    cases fetches with
    | nil => simp [pollLoop, hd] at hcon
    | cons f rest =>
      cases f with
      | error e => simp [pollLoop, hd] at hcon
      | ok op2 =>
        simp only [pollLoop, hd, if_false] at hcon
        rcases h2 : pollLoop op2 rest with - | r
        · simp [h2] at hcon
        · cases r with
          | error e => simp [h2] at hcon
          | ok t => simp [h2] at hcon

/-- Witness for C10: the handle with no `done` attribute reads as not
done and an empty fetch stream leaves the loop still polling. -/
theorem poll_guard_spec_witness :
    getattrDone { done := none } = false ∧
      pollLoop { done := none } [] = none :=
  ⟨(poll_guard_spec { done := none } rfl).1,
   (poll_guard_spec { done := none } rfl).2.1⟩

/-- Claim C1, behaviour of the code at the failing input: a batch whose
first file raises at the temp-file write step makes the `except`
handler itself raise `NameError` on the unbound `display_name`, so no
failure record is collected for that file, the loop is aborted with the
escaping exception, and the remaining file is never processed (its
upload — an operation that would immediately be done — never runs and
no row for it appears). -/
theorem upload_loop_write_error_aborts :
    uploadLoop (fun _ => none)
      [{ name := "a.txt", tmpName := "/tmp/t1", tmpWriteErr := some "disk full",
         uploadResult := .error "not reached", fetches := [] },
       { name := "b.txt", tmpName := "/tmp/t2", tmpWriteErr := none,
         uploadResult := .ok { done := some true }, fetches := [] }] =
      (["/tmp/t1"], .aborted [] "NameError: display_name") := by
  decide

/-- Counterexample to claim C2 as stated: in a two-file batch whose
second file raises at the temp-file write, the loop completes and
collects a failure record for the second file (with the first file's
stale display name), yet the temporary file created for the second
attempt — `/tmp/t2` — is never removed: the `finally` block removes the
path still bound from the first iteration instead. -/
theorem temp_file_leak_counterexample :
    uploadLoop (fun _ => none)
      [{ name := "a.txt", tmpName := "/tmp/t1", tmpWriteErr := none,
         uploadResult := .ok { done := some true }, fetches := [] },
       { name := "b.txt", tmpName := "/tmp/t2", tmpWriteErr := some "disk full",
         uploadResult := .error "not reached", fetches := [] }] =
      (["/tmp/t2"],
       .finished
         [{ file := "a.txt", display_name := "a", mime_type := some "text/plain",
            status := "success" },
          { file := "b.txt", display_name := "a", mime_type := none,
            status := "error: disk full" }]) := by
  decide

/-- Claim C2 (amended): the scoped temporary file is removed on every
exit path on which the temp-file write completed — successful import,
remote failure including the upload call raising before any operation
handle is returned, and any later local exception (the net effect on
the set of existing temp files is nil; the unboundedly polling path,
which never exits, is the only exception). When the temp-file write
itself raises, the file created for that attempt is not removed. -/
theorem temp_file_cleanup_spec :
    ∀ (table : String → Option String) (vars : LocalVars) (fs : List String)
      (f : FileInput),
      (f.tmpWriteErr = none →
        (processFile table vars fs f).2.2 ≠ .hung →
        (processFile table vars fs f).2.1 = fs) ∧
      (∀ msg, f.tmpWriteErr = some msg →
        vars.temp_path ≠ some f.tmpName →
        f.tmpName ∈ (processFile table vars fs f).2.1) := by
  intro table vars fs f
  constructor
  · intro h1 h2
    cases hu : f.uploadResult with
    | error msg =>
      simp [processFile, h1, hu, mkFailureRecord, finallyCleanup]
    | ok op =>
      rcases hp : pollLoop op f.fetches with - | r
      · exact absurd (by simp [processFile, h1, hu, hp]) h2
      · cases r with
        | error msg =>
          simp [processFile, h1, hu, hp, mkFailureRecord, finallyCleanup]
        | ok t =>
          simp [processFile, h1, hu, hp, finallyCleanup]
  · intro msg h1 hne
    cases hd : vars.display_name with
    | none =>
      simp only [processFile, h1, mkFailureRecord, hd, finallyCleanup]
      cases ht : vars.temp_path with
      | none => simp
      | some p =>
        have hpn : f.tmpName ≠ p := fun hc => hne (hc ▸ ht)
        simp [List.mem_erase_of_ne hpn]
    | some d =>
      simp only [processFile, h1, mkFailureRecord, hd, finallyCleanup]
      cases ht : vars.temp_path with
      | none => simp
      | some p =>
        have hpn : f.tmpName ≠ p := fun hc => hne (hc ▸ ht)
        simp [List.mem_erase_of_ne hpn]

/-- Witness for C2: an upload call that raises before any operation
handle exists still leaves no temp file behind (the net temp-file set
is unchanged), and a write failure leaves the created file `/tmp/t9`
in place. -/
theorem temp_file_cleanup_spec_witness :
    (processFile (fun _ => none) { display_name := none, temp_path := none } []
      { name := "a.txt", tmpName := "/tmp/t1", tmpWriteErr := none,
        uploadResult := .error "boom", fetches := [] }).2.1 = [] ∧
    "/tmp/t9" ∈ (processFile (fun _ => none)
      { display_name := none, temp_path := none } []
      { name := "b.txt", tmpName := "/tmp/t9", tmpWriteErr := some "disk full",
        uploadResult := .error "not reached", fetches := [] }).2.1 :=
  ⟨(temp_file_cleanup_spec (fun _ => none)
      { display_name := none, temp_path := none } []
      { name := "a.txt", tmpName := "/tmp/t1", tmpWriteErr := none,
        uploadResult := .error "boom", fetches := [] }).1 rfl (by decide),
   (temp_file_cleanup_spec (fun _ => none)
      { display_name := none, temp_path := none } []
      { name := "b.txt", tmpName := "/tmp/t9", tmpWriteErr := some "disk full",
        uploadResult := .error "not reached", fetches := [] }).2 "disk full"
      rfl (by decide)⟩
